import Mathlib

/-!
Verification development for the Review Board web API resource layer
(`reviewboard/webapi/resources.py`).  The Python resource classes are
shallowly embedded as executable Lean functions over explicit record
states; Django model managers that the resource layer calls are embedded
where their behaviour matters (get_or_create, many-to-many writes,
filters), with spec-modelled definitions for model methods whose source
is outside the embedded files.
-/

/-! ## String helpers

Python string primitives used by the resource layer, embedded as
structural recursion over character lists so every definition reduces in
the kernel.
-/

/-- Splits a character list at every occurrence of the separator.
`splitList c []` is `[[]]`, matching the Python behaviour of
`"".split(c)` returning one empty chunk. -/
def splitList (sep : Char) : List Char → List (List Char)
  | [] => [[]]
  | c :: rest =>
    let r := splitList sep rest
    if c == sep then [] :: r
    else
      match r with
      | [] => [[c]]
      | h :: t => (c :: h) :: t

/-- Python `s.split(sep)` for a single-character separator. -/
def pySplit (sep : Char) (s : String) : List String :=
  (splitList sep s.data).map (fun cs => String.mk cs)

/-- Python `s.strip()`: drops leading and trailing whitespace. -/
def pyStrip (s : String) : String :=
  String.mk (((s.data.dropWhile Char.isWhitespace).reverse.dropWhile
      Char.isWhitespace).reverse)

/-- Python `re.split(",\\s*", s)`: split at each comma and drop the run of
whitespace that follows the comma.  Equivalently: split on commas, then
strip leading whitespace from every chunk after the first. -/
def reSplitCommaWs (s : String) : List String :=
  match pySplit ',' s with
  | [] => []
  | h :: t => h :: t.map (fun x => String.mk (x.data.dropWhile Char.isWhitespace))

/-- Case-insensitive string equality, embedding the `__iexact` lookups. -/
def lowerEq (a b : String) : Bool :=
  a.data.map Char.toLower == b.data.map Char.toLower

/-- Removes the literal `pre` from the front of `s`; `none` when `s` does
not start with `pre`. -/
def chopLit : List Char → List Char → Option (List Char)
  | [], s => some s
  | _ :: _, [] => none
  | p :: ps, c :: cs => if c == p then chopLit ps cs else none

/-- Decimal value of a digit list. -/
def digitsToNat (cs : List Char) : Nat :=
  cs.foldl (fun n c => n * 10 + (c.toNat - '0'.toNat)) 0

/-- Python `",".join(l)`. -/
def joinCommas : List String → String
  | [] => ""
  | [s] => s
  | s :: rest => s ++ "," ++ joinCommas rest

/-! ## Review request status codes

`status_to_string` and `string_to_status` from the bottom of
`resources.py`; the Python `None` status (meaning "all") is embedded as
`Option.none`, and the `raise Exception` arms as `Except.error`.
-/

/-- `status_to_string(status)`: renders the stored one-letter status code
(`"P"`, `"S"`, `"D"`, or null) as the API word; any other value raises. -/
def status_to_string (status : Option String) : Except String String :=
  if status = some "P" then .ok "pending"
  else if status = some "S" then .ok "submitted"
  else if status = some "D" then .ok "discarded"
  else if status = none then .ok "all"
  else .error ("Invalid status " ++ (status.getD ""))

/-- `string_to_status(status)`: parses the API word back into the stored
one-letter status code, with `"all"` mapping to null; any other string
raises. -/
def string_to_status (status : String) : Except String (Option String) :=
  if status = "pending" then .ok (some "P")
  else if status = "submitted" then .ok (some "S")
  else if status = "discarded" then .ok (some "D")
  else if status = "all" then .ok none
  else .error ("Invalid status " ++ status)

/-- C9: `string_to_status` inverts `status_to_string` on the four valid
status codes, and rejects every other input string. -/
theorem c9_status_roundtrip :
    (∀ s : Option String,
      (s = some "P" ∨ s = some "S" ∨ s = some "D" ∨ s = none) →
        Except.bind (status_to_string s) string_to_status = .ok s) ∧
    (∀ t : String, t ≠ "pending" → t ≠ "submitted" → t ≠ "discarded" →
      t ≠ "all" → string_to_status t = .error ("Invalid status " ++ t)) := by
  constructor
  · intro s hs
    rcases hs with h | h | h | h <;> subst h <;> rfl
  · intro t h1 h2 h3 h4
    simp [string_to_status, h1, h2, h3, h4]

/-- C9 witness: the round trip evaluated at `"P"` and the error case
evaluated at the string `"bogus"`. -/
theorem c9_status_roundtrip_witness :
    Except.bind (status_to_string (some "P")) string_to_status
        = .ok (some "P") ∧
    string_to_status "bogus" = .error ("Invalid status " ++ "bogus") :=
  ⟨c9_status_roundtrip.1 (some "P") (Or.inl rfl),
   c9_status_roundtrip.2 "bogus" (by decide) (by decide) (by decide)
     (by decide)⟩

/-! ## Reviews and replies

The `Review` model row as used by `BaseReviewResource`,
`ReviewReplyResource` and the comment resources.  A reply is a `Review`
whose `baseReplyTo` is non-null.  Identities (users, review requests) are
embedded as numeric ids.
-/

structure Review where
  id : Nat
  reviewRequest : Nat
  user : Nat
  public : Bool
  shipIt : Bool
  bodyTop : String
  bodyBottom : String
  baseReplyTo : Option Nat
  bodyTopReplyTo : Option Nat
  bodyBottomReplyTo : Option Nat
deriving DecidableEq, Repr

/-- `BaseReviewResource.has_modify_permissions`: a review may be modified
only while it is not public and the requester is its author. -/
def has_modify_permissions (requestUser : Nat) (review : Review) : Bool :=
  !review.public && review.user == requestUser

/-- `BaseReviewResource.has_delete_permissions`: same rule as modify. -/
def has_delete_permissions (requestUser : Nat) (review : Review) : Bool :=
  !review.public && review.user == requestUser

/-- Modelled from the spec: `Review.publish` (in `reviews/models.py`, not
under the embedded sources) marks the review public; notification
dispatch is an external collaborator with no effect on the row. -/
def Review.publish (review : Review) : Review :=
  { review with public := true }

/-- The three optional field assignments shared by `_update_review`
(`ship_it`, `body_top`, `body_bottom`; a null option means the field was
omitted and is left unchanged). -/
def apply_review_fields (review : Review) (ship_it : Option Bool)
    (body_top body_bottom : Option String) : Review :=
  let review := match ship_it with
    | some b => { review with shipIt := b }
    | none => review
  let review := match body_top with
    | some s => { review with bodyTop := s }
    | none => review
  match body_bottom with
  | some s => { review with bodyBottom := s }
  | none => review

inductive ReviewUpdateOutcome where
  | permissionDenied
  | ok (status : Nat)
deriving DecidableEq, Repr

/-- `BaseReviewResource._update_review`: denies unless the requester may
modify the review, otherwise applies the provided fields, saves, and
publishes when asked.  The returned review is the stored row after the
call (unchanged on denial). -/
def update_review (requestUser : Nat) (review : Review) (publish : Bool)
    (ship_it : Option Bool) (body_top body_bottom : Option String) :
    ReviewUpdateOutcome × Review :=
  if !(has_modify_permissions requestUser review) then
    (.permissionDenied, review)
  else
    let review := apply_review_fields review ship_it body_top body_bottom
    (.ok 200, if publish then review.publish else review)

/-- `ReviewReplyResource._update_reply`: denies unless the requester may
modify the reply; applies `body_top`/`body_bottom` when provided, setting
the matching reply-to-origin pointer to `base_reply_to` for a non-empty
value and clearing it for the empty string; publishes or saves. -/
def update_reply (requestUser : Nat) (reply : Review) (publish : Bool)
    (body_top body_bottom : Option String) :
    ReviewUpdateOutcome × Review :=
  if !(has_modify_permissions requestUser reply) then
    (.permissionDenied, reply)
  else
    let reply := match body_top with
      | none => reply
      | some s =>
        let r := { reply with bodyTop := s }
        if s = "" then { r with bodyTopReplyTo := none }
        else { r with bodyTopReplyTo := r.baseReplyTo }
    let reply := match body_bottom with
      | none => reply
      | some s =>
        let r := { reply with bodyBottom := s }
        if s = "" then { r with bodyBottomReplyTo := none }
        else { r with bodyBottomReplyTo := r.baseReplyTo }
    (.ok 200, if publish then reply.publish else reply)

/-- C2: a public review or reply is immutable: every update attempt
(through the review path or the reply path, by any requester, including
the author) returns PERMISSION_DENIED and leaves the stored row
unchanged, and delete permission is denied. -/
theorem c2_published_review_immutable (u : Nat) (review : Review)
    (publish : Bool) (si : Option Bool) (bt bb : Option String)
    (h : review.public = true) :
    update_review u review publish si bt bb = (.permissionDenied, review) ∧
    update_reply u review publish bt bb = (.permissionDenied, review) ∧
    has_delete_permissions u review = false := by
  refine ⟨?_, ?_, ?_⟩ <;>
    simp [update_review, update_reply, has_modify_permissions,
      has_delete_permissions, h]

/-- C2 witness: a concrete public review, updated by its own author. -/
theorem c2_published_review_immutable_witness :
    update_review 7
        { id := 1, reviewRequest := 2, user := 7, public := true,
          shipIt := false, bodyTop := "a", bodyBottom := "b",
          baseReplyTo := none, bodyTopReplyTo := none,
          bodyBottomReplyTo := none }
        false (some true) (some "x") none
      = (.permissionDenied,
          { id := 1, reviewRequest := 2, user := 7, public := true,
            shipIt := false, bodyTop := "a", bodyBottom := "b",
            baseReplyTo := none, bodyTopReplyTo := none,
            bodyBottomReplyTo := none }) ∧
    update_reply 7
        { id := 1, reviewRequest := 2, user := 7, public := true,
          shipIt := false, bodyTop := "a", bodyBottom := "b",
          baseReplyTo := none, bodyTopReplyTo := none,
          bodyBottomReplyTo := none }
        false (some "x") none
      = (.permissionDenied,
          { id := 1, reviewRequest := 2, user := 7, public := true,
            shipIt := false, bodyTop := "a", bodyBottom := "b",
            baseReplyTo := none, bodyTopReplyTo := none,
            bodyBottomReplyTo := none }) ∧
    has_delete_permissions 7
        { id := 1, reviewRequest := 2, user := 7, public := true,
          shipIt := false, bodyTop := "a", bodyBottom := "b",
          baseReplyTo := none, bodyTopReplyTo := none,
          bodyBottomReplyTo := none } = false :=
  c2_published_review_immutable 7 _ false (some true) (some "x") none rfl

/-- C7: updating a draft reply with a non-empty `body_top` (resp.
`body_bottom`) sets `body_top_reply_to` (resp. `body_bottom_reply_to`) to
the review being replied to (`base_reply_to`); the empty string clears
the pointer; an omitted field leaves both the body and the pointer
unchanged. -/
theorem c7_reply_body_reply_to_pointers (u : Nat) (reply : Review)
    (bt bb : Option String) (s : String)
    (h1 : reply.public = false) (h2 : reply.user = u) (hs : s ≠ "") :
    ((update_reply u reply false (some s) bb).2.bodyTop = s ∧
     (update_reply u reply false (some s) bb).2.bodyTopReplyTo
        = reply.baseReplyTo) ∧
    ((update_reply u reply false (some "") bb).2.bodyTop = "" ∧
     (update_reply u reply false (some "") bb).2.bodyTopReplyTo = none) ∧
    ((update_reply u reply false none bb).2.bodyTop = reply.bodyTop ∧
     (update_reply u reply false none bb).2.bodyTopReplyTo
        = reply.bodyTopReplyTo) ∧
    ((update_reply u reply false bt (some s)).2.bodyBottom = s ∧
     (update_reply u reply false bt (some s)).2.bodyBottomReplyTo
        = reply.baseReplyTo) ∧
    ((update_reply u reply false bt (some "")).2.bodyBottom = "" ∧
     (update_reply u reply false bt (some "")).2.bodyBottomReplyTo
        = none) ∧
    ((update_reply u reply false bt none).2.bodyBottom = reply.bodyBottom ∧
     (update_reply u reply false bt none).2.bodyBottomReplyTo
        = reply.bodyBottomReplyTo) := by
  refine ⟨?_, ?_, ?_, ?_, ?_, ?_⟩ <;>
    cases bb <;> cases bt <;>
      simp [update_reply, has_modify_permissions, h1, h2, hs] <;>
      split <;> simp_all

/-- C7 witness: a concrete private reply owned by user 4 replying to
review 9, updated with a non-empty body. -/
theorem c7_reply_body_reply_to_pointers_witness :
    ((update_reply 4
        { id := 11, reviewRequest := 2, user := 4, public := false,
          shipIt := false, bodyTop := "", bodyBottom := "old",
          baseReplyTo := some 9, bodyTopReplyTo := none,
          bodyBottomReplyTo := some 9 }
        false (some "thanks") none).2.bodyTop = "thanks" ∧
     (update_reply 4
        { id := 11, reviewRequest := 2, user := 4, public := false,
          shipIt := false, bodyTop := "", bodyBottom := "old",
          baseReplyTo := some 9, bodyTopReplyTo := none,
          bodyBottomReplyTo := some 9 }
        false (some "thanks") none).2.bodyTopReplyTo = some 9) ∧
    ((update_reply 4
        { id := 11, reviewRequest := 2, user := 4, public := false,
          shipIt := false, bodyTop := "", bodyBottom := "old",
          baseReplyTo := some 9, bodyTopReplyTo := none,
          bodyBottomReplyTo := some 9 }
        false (some "") none).2.bodyTop = "" ∧
     (update_reply 4
        { id := 11, reviewRequest := 2, user := 4, public := false,
          shipIt := false, bodyTop := "", bodyBottom := "old",
          baseReplyTo := some 9, bodyTopReplyTo := none,
          bodyBottomReplyTo := some 9 }
        false (some "") none).2.bodyTopReplyTo = none) ∧
    ((update_reply 4
        { id := 11, reviewRequest := 2, user := 4, public := false,
          shipIt := false, bodyTop := "", bodyBottom := "old",
          baseReplyTo := some 9, bodyTopReplyTo := none,
          bodyBottomReplyTo := some 9 }
        false none none).2.bodyTop = "" ∧
     (update_reply 4
        { id := 11, reviewRequest := 2, user := 4, public := false,
          shipIt := false, bodyTop := "", bodyBottom := "old",
          baseReplyTo := some 9, bodyTopReplyTo := none,
          bodyBottomReplyTo := some 9 }
        false none none).2.bodyTopReplyTo = none) ∧
    ((update_reply 4
        { id := 11, reviewRequest := 2, user := 4, public := false,
          shipIt := false, bodyTop := "", bodyBottom := "old",
          baseReplyTo := some 9, bodyTopReplyTo := none,
          bodyBottomReplyTo := some 9 }
        false none (some "thanks")).2.bodyBottom = "thanks" ∧
     (update_reply 4
        { id := 11, reviewRequest := 2, user := 4, public := false,
          shipIt := false, bodyTop := "", bodyBottom := "old",
          baseReplyTo := some 9, bodyTopReplyTo := none,
          bodyBottomReplyTo := some 9 }
        false none (some "thanks")).2.bodyBottomReplyTo = some 9) ∧
    ((update_reply 4
        { id := 11, reviewRequest := 2, user := 4, public := false,
          shipIt := false, bodyTop := "", bodyBottom := "old",
          baseReplyTo := some 9, bodyTopReplyTo := none,
          bodyBottomReplyTo := some 9 }
        false none (some "")).2.bodyBottom = "" ∧
     (update_reply 4
        { id := 11, reviewRequest := 2, user := 4, public := false,
          shipIt := false, bodyTop := "", bodyBottom := "old",
          baseReplyTo := some 9, bodyTopReplyTo := none,
          bodyBottomReplyTo := some 9 }
        false none (some "")).2.bodyBottomReplyTo = none) ∧
    ((update_reply 4
        { id := 11, reviewRequest := 2, user := 4, public := false,
          shipIt := false, bodyTop := "", bodyBottom := "old",
          baseReplyTo := some 9, bodyTopReplyTo := none,
          bodyBottomReplyTo := some 9 }
        false none none).2.bodyBottom = "old" ∧
     (update_reply 4
        { id := 11, reviewRequest := 2, user := 4, public := false,
          shipIt := false, bodyTop := "", bodyBottom := "old",
          baseReplyTo := some 9, bodyTopReplyTo := none,
          bodyBottomReplyTo := some 9 }
        false none none).2.bodyBottomReplyTo = some 9) :=
  c7_reply_body_reply_to_pointers 4 _ none none "thanks" rfl rfl
    (by decide)

/-! ## Review creation (get-or-create singleton semantics)

`BaseReviewResource.create` and `ReviewReplyResource.create` both call
`Review.objects.get_or_create` keyed on
`(review_request, user, public=False, base_reply_to)`, then run the
common update and report 201 (created) or 303 (redirected to the existing
draft).  The review table is embedded as a list of rows plus a fresh-id
counter.
-/

/-- The Django lookup key used by both create paths: review request,
author, `public=False`, and the `base_reply_to` field (null for top-level
reviews, the replied-to review for replies). -/
def reviewKeyMatch (rrId uId : Nat) (brt : Option Nat) (r : Review) : Bool :=
  r.reviewRequest == rrId && r.user == uId && r.public == false &&
    r.baseReplyTo == brt

/-- `Review.objects.get_or_create(...)`: returns the first stored row
matching the key, or inserts a fresh private review with empty bodies.
The result carries the row, the `created` flag, and the new table. -/
def review_get_or_create (store : List Review) (nextId : Nat)
    (rrId uId : Nat) (brt : Option Nat) :
    Review × Bool × List Review × Nat :=
  match store.find? (reviewKeyMatch rrId uId brt) with
  | some r => (r, false, store, nextId)
  | none =>
    let r : Review :=
      { id := nextId, reviewRequest := rrId, user := uId, public := false,
        shipIt := false, bodyTop := "", bodyBottom := "",
        baseReplyTo := brt, bodyTopReplyTo := none,
        bodyBottomReplyTo := none }
    (r, true, store ++ [r], nextId + 1)

/-- `review.save()`: writes the row back into the table by id. -/
def saveReview (store : List Review) (r : Review) : List Review :=
  store.map (fun x => if x.id == r.id then r else x)

inductive CreateOutcome where
  | permissionDenied
  | created (status : Nat) (reviewId : Nat)
deriving DecidableEq, Repr

structure CreateResult where
  outcome : CreateOutcome
  store : List Review
  nextId : Nat
deriving DecidableEq, Repr

/-- `BaseReviewResource.create` (and the identical
`ReviewReplyResource.create` with a non-null `base_reply_to`):
get-or-create on the singleton key, status 201 when a row was created and
303 when the existing draft was reused, then the common field update with
`publish=False`; the updated row is saved back into the table. -/
def review_resource_create (store : List Review) (nextId : Nat)
    (rrId uId : Nat) (brt : Option Nat) (ship_it : Option Bool)
    (body_top body_bottom : Option String) : CreateResult :=
  let gc := review_get_or_create store nextId rrId uId brt
  let review := gc.1
  let is_new := gc.2.1
  let store := gc.2.2.1
  let nextId := gc.2.2.2
  let status_code := if is_new then 201 else 303
  match update_review uId review false ship_it body_top body_bottom with
  | (.permissionDenied, _) =>
    { outcome := .permissionDenied, store := store, nextId := nextId }
  | (.ok _, review) =>
    { outcome := .created status_code review.id,
      store := saveReview store review, nextId := nextId }

/-! Helper lemmas about the embedded store operations. -/

theorem apply_review_fields_id (r : Review) (si : Option Bool)
    (bt bb : Option String) :
    (apply_review_fields r si bt bb).id = r.id ∧
    (apply_review_fields r si bt bb).reviewRequest = r.reviewRequest ∧
    (apply_review_fields r si bt bb).user = r.user ∧
    (apply_review_fields r si bt bb).public = r.public ∧
    (apply_review_fields r si bt bb).baseReplyTo = r.baseReplyTo := by
  cases si <;> cases bt <;> cases bb <;> simp [apply_review_fields]

theorem find?_append_of_none {α : Type} (p : α → Bool) (l₁ l₂ : List α)
    (h : l₁.find? p = none) : (l₁ ++ l₂).find? p = l₂.find? p := by
  induction l₁ with
  | nil => simp
  | cons a t ih =>
    cases hp : p a with
    | true => simp [List.find?_cons, hp] at h
    | false =>
      simp only [List.find?_cons, hp] at h
      simp only [List.cons_append, List.find?_cons, hp]
      exact ih h

theorem map_eq_self_of_mem {α : Type} {l : List α} {f : α → α}
    (h : ∀ a ∈ l, f a = a) : l.map f = l := by
  induction l with
  | nil => rfl
  | cons a t ih =>
    simp only [List.map_cons, h a (by simp)]
    rw [ih (fun x hx => h x (by simp [hx]))]

theorem countP_eq_zero_of_find?_none {α : Type} (p : α → Bool)
    (l : List α) (h : l.find? p = none) : l.countP p = 0 := by
  induction l with
  | nil => rfl
  | cons a t ih =>
    rw [List.find?_cons] at h
    cases hp : p a with
    | true => simp [hp] at h
    | false =>
      simp only [hp] at h
      rw [List.countP_cons, ih h]
      simp [hp]

theorem reviewKeyMatch_fields (rrId uId : Nat) (brt : Option Nat)
    (r : Review) (hk : reviewKeyMatch rrId uId brt r = true) :
    r.reviewRequest = rrId ∧ r.user = uId ∧ r.public = false ∧
    r.baseReplyTo = brt := by
  simp only [reviewKeyMatch, Bool.and_eq_true, beq_iff_eq] at hk
  exact ⟨hk.1.1.1, hk.1.1.2, hk.1.2, hk.2⟩

theorem review_resource_create_absent (store : List Review)
    (n rrId uId : Nat) (brt : Option Nat) (si : Option Bool)
    (bt bb : Option String)
    (h1 : store.find? (reviewKeyMatch rrId uId brt) = none)
    (h2 : ∀ r ∈ store, r.id < n) :
    review_resource_create store n rrId uId brt si bt bb =
      { outcome := .created 201 n,
        store := store ++
          [apply_review_fields
            ⟨n, rrId, uId, false, false, "", "", brt, none, none⟩ si bt bb],
        nextId := n + 1 } := by
  have hid :
      (apply_review_fields
        ⟨n, rrId, uId, false, false, "", "", brt, none, none⟩ si bt bb).id
        = n :=
    (apply_review_fields_id _ si bt bb).1
  have hsave : saveReview
      (store ++ [⟨n, rrId, uId, false, false, "", "", brt, none, none⟩])
      (apply_review_fields
        ⟨n, rrId, uId, false, false, "", "", brt, none, none⟩ si bt bb)
      = store ++
        [apply_review_fields
          ⟨n, rrId, uId, false, false, "", "", brt, none, none⟩ si bt bb] := by
    simp only [saveReview, List.map_append]
    congr 1
    · apply map_eq_self_of_mem
      intro x hx
      have hne : x.id ≠ (apply_review_fields
          ⟨n, rrId, uId, false, false, "", "", brt, none, none⟩
          si bt bb).id := by
        rw [hid]; exact Nat.ne_of_lt (h2 x hx)
      simp [hne]
    · simp [hid]
  simp only [review_resource_create, review_get_or_create, h1,
    update_review, has_modify_permissions]
  simp [hsave, hid]

theorem review_resource_create_found (pre : List Review) (r : Review)
    (n rrId uId : Nat) (brt : Option Nat) (si : Option Bool)
    (bt bb : Option String)
    (h1 : pre.find? (reviewKeyMatch rrId uId brt) = none)
    (hk : reviewKeyMatch rrId uId brt r = true)
    (h2 : ∀ x ∈ pre, x.id < r.id) :
    review_resource_create (pre ++ [r]) n rrId uId brt si bt bb =
      { outcome := .created 303 r.id,
        store := pre ++ [apply_review_fields r si bt bb],
        nextId := n } := by
  obtain ⟨hrr, hu, hp, hb⟩ := reviewKeyMatch_fields rrId uId brt r hk
  have hfind : (pre ++ [r]).find? (reviewKeyMatch rrId uId brt) = some r := by
    rw [find?_append_of_none _ _ _ h1]
    simp [List.find?_cons, hk]
  have hid : (apply_review_fields r si bt bb).id = r.id :=
    (apply_review_fields_id r si bt bb).1
  have hsave : saveReview (pre ++ [r]) (apply_review_fields r si bt bb)
      = pre ++ [apply_review_fields r si bt bb] := by
    simp only [saveReview, List.map_append]
    congr 1
    · apply map_eq_self_of_mem
      intro x hx
      have hne : x.id ≠ (apply_review_fields r si bt bb).id := by
        rw [hid]; exact Nat.ne_of_lt (h2 x hx)
      simp [hne]
    · simp [hid]
  simp only [review_resource_create, review_get_or_create, hfind,
    update_review, has_modify_permissions, hp, hu]
  simp [hsave, hid]

/-- C4: with no private review stored for the key
`(review_request, user, base_reply_to)`, two sequential create calls with
no intervening publish return the same review identity (the fresh id),
the first reporting 201 (created) and the second 303 (redirected to the
existing draft), and after each call exactly one private review exists
for the key. -/
theorem c4_review_create_idempotent (store : List Review)
    (n rrId uId : Nat) (brt : Option Nat) (si si2 : Option Bool)
    (bt bt2 bb bb2 : Option String)
    (h1 : store.find? (reviewKeyMatch rrId uId brt) = none)
    (h2 : ∀ r ∈ store, r.id < n) :
    (review_resource_create store n rrId uId brt si bt bb).outcome
        = .created 201 n ∧
    (review_resource_create
        (review_resource_create store n rrId uId brt si bt bb).store
        (review_resource_create store n rrId uId brt si bt bb).nextId
        rrId uId brt si2 bt2 bb2).outcome = .created 303 n ∧
    (review_resource_create store n rrId uId brt si bt bb).store.countP
        (reviewKeyMatch rrId uId brt) = 1 ∧
    (review_resource_create
        (review_resource_create store n rrId uId brt si bt bb).store
        (review_resource_create store n rrId uId brt si bt bb).nextId
        rrId uId brt si2 bt2 bb2).store.countP
        (reviewKeyMatch rrId uId brt) = 1 := by
  have e1 := review_resource_create_absent store n rrId uId brt si bt bb h1 h2
  obtain ⟨hid1, hrr1, hu1, hp1, hb1⟩ := apply_review_fields_id
    (⟨n, rrId, uId, false, false, "", "", brt, none, none⟩ : Review) si bt bb
  have hk1 : reviewKeyMatch rrId uId brt
      (apply_review_fields
        ⟨n, rrId, uId, false, false, "", "", brt, none, none⟩ si bt bb)
      = true := by
    simp [reviewKeyMatch, hrr1, hu1, hp1, hb1]
  have h2' : ∀ x ∈ store, x.id <
      (apply_review_fields
        ⟨n, rrId, uId, false, false, "", "", brt, none, none⟩
        si bt bb).id := by
    intro x hx
    rw [hid1]
    exact h2 x hx
  have e2 := review_resource_create_found store
    (apply_review_fields
      ⟨n, rrId, uId, false, false, "", "", brt, none, none⟩ si bt bb)
    (n + 1) rrId uId brt si2 bt2 bb2 h1 hk1 h2'
  obtain ⟨hid2, hrr2, hu2, hp2, hb2⟩ := apply_review_fields_id
    (apply_review_fields
      ⟨n, rrId, uId, false, false, "", "", brt, none, none⟩ si bt bb)
    si2 bt2 bb2
  have hk2 : reviewKeyMatch rrId uId brt
      (apply_review_fields
        (apply_review_fields
          ⟨n, rrId, uId, false, false, "", "", brt, none, none⟩ si bt bb)
        si2 bt2 bb2) = true := by
    simp [reviewKeyMatch, hrr2, hu2, hp2, hb2, hrr1, hu1, hp1, hb1]
  refine ⟨?_, ?_, ?_, ?_⟩
  · rw [e1]
  · rw [e1]
    dsimp only
    rw [e2]
    dsimp only
    rw [hid1]
  · rw [e1]
    dsimp only
    rw [List.countP_append, countP_eq_zero_of_find?_none _ _ h1]
    simp [List.countP_cons, hk1]
  · rw [e1]
    dsimp only
    rw [e2]
    dsimp only
    rw [List.countP_append, countP_eq_zero_of_find?_none _ _ h1]
    simp [List.countP_cons, hk2]

/-- C4 witness: two sequential reply-create calls on an empty review
table for review request 10, user 20, replying to review 5. -/
theorem c4_review_create_idempotent_witness :
    (review_resource_create [] 1 10 20 (some 5) none (some "hi")
        none).outcome = .created 201 1 ∧
    (review_resource_create
        (review_resource_create [] 1 10 20 (some 5) none (some "hi")
          none).store
        (review_resource_create [] 1 10 20 (some 5) none (some "hi")
          none).nextId
        10 20 (some 5) none (some "later") none).outcome
      = .created 303 1 ∧
    (review_resource_create [] 1 10 20 (some 5) none (some "hi")
        none).store.countP (reviewKeyMatch 10 20 (some 5)) = 1 ∧
    (review_resource_create
        (review_resource_create [] 1 10 20 (some 5) none (some "hi")
          none).store
        (review_resource_create [] 1 10 20 (some 5) none (some "hi")
          none).nextId
        10 20 (some 5) none (some "later") none).store.countP
        (reviewKeyMatch 10 20 (some 5)) = 1 :=
  c4_review_create_idempotent [] 1 10 20 (some 5) none none (some "hi")
    (some "later") none none rfl (by simp)

/-! ## Comment replies

`ReviewReplyCommentResource.create` and
`ReviewReplyScreenshotCommentResource.create`: creating a comment on a
draft reply, copying location fields from the original comment.
-/

structure Comment where
  id : Nat
  filediff : Nat
  interfilediff : Option Nat
  first_line : Nat
  num_lines : Nat
  text : String
  reply_to : Option Nat
deriving DecidableEq, Repr

structure ScreenshotComment where
  id : Nat
  screenshot : Nat
  x : Int
  y : Int
  w : Int
  h : Int
  text : String
  reply_to : Option Nat
deriving DecidableEq, Repr

inductive ReplyCommentResult (α : Type) where
  | permissionDenied
  | invalidFormData (field : String) (msg : String)
  | created (c : α)
deriving DecidableEq, Repr

/-- `ReviewReplyCommentResource.create`: requires modify permission on
the draft reply, resolves `reply_to_id` among the stored diff comments
(a per-field validation error when absent), then builds the new comment
copying `filediff`, `interfilediff`, `first_line` and `num_lines` from
the original, overriding `text`, and linking `reply_to`. -/
def reply_comment_create (requestUser : Nat) (reply : Review)
    (comments : List Comment) (nextId : Nat) (reply_to_id : Nat)
    (text : String) : ReplyCommentResult Comment :=
  if !(has_modify_permissions requestUser reply) then .permissionDenied
  else
    match comments.find? (fun c => c.id == reply_to_id) with
    | none => .invalidFormData "reply_to_id" "This is not a valid comment ID"
    | some comment =>
      .created
        { id := nextId, filediff := comment.filediff,
          interfilediff := comment.interfilediff,
          reply_to := some comment.id, text := text,
          first_line := comment.first_line,
          num_lines := comment.num_lines }

/-- `ReviewReplyScreenshotCommentResource.create`: same gate and lookup
for screenshot comments; the new comment copies `screenshot` and the
(x, y, w, h) region and overrides `text`.  The source constructor passes
no `reply_to` argument, so the new row keeps the model default of null. -/
def reply_screenshot_comment_create (requestUser : Nat) (reply : Review)
    (comments : List ScreenshotComment) (nextId : Nat) (reply_to_id : Nat)
    (text : String) : ReplyCommentResult ScreenshotComment :=
  if !(has_modify_permissions requestUser reply) then .permissionDenied
  else
    match comments.find? (fun c => c.id == reply_to_id) with
    | none =>
      .invalidFormData "reply_to_id"
        "This is not a valid screenshot comment ID"
    | some comment =>
      .created
        { id := nextId, screenshot := comment.screenshot,
          x := comment.x, y := comment.y, w := comment.w, h := comment.h,
          text := text, reply_to := none }

/-- C6 counterexample: replying to a concrete screenshot comment (id 5)
produces a comment whose `reply_to` is null, not a link to the original,
so the screenshot variant does not satisfy the identical contract the
claim states. -/
theorem c6_screenshot_reply_to_counterexample :
    reply_screenshot_comment_create 7
        { id := 3, reviewRequest := 1, user := 7, public := false,
          shipIt := false, bodyTop := "", bodyBottom := "",
          baseReplyTo := some 2, bodyTopReplyTo := none,
          bodyBottomReplyTo := none }
        [{ id := 5, screenshot := 4, x := 1, y := 2, w := 3, h := 4,
           text := "orig", reply_to := none }]
        9 5 "re"
      = .created
          { id := 9, screenshot := 4, x := 1, y := 2, w := 3, h := 4,
            text := "re", reply_to := none } ∧
    (none : Option Nat) ≠ some 5 := by
  refine ⟨rfl, by decide⟩

/-- C6 amended: a diff-comment reply copies `filediff`,
`interfilediff`, `first_line` and `num_lines` from the original,
overrides `text` and links `reply_to` to the original; the screenshot
variant copies `screenshot` and the (x, y, w, h) region and overrides
`text`, but leaves `reply_to` null instead of linking it. -/
theorem c6_reply_comment_copies_fields (u : Nat) (reply : Review)
    (cs : List Comment) (scs : List ScreenshotComment)
    (n rid srid : Nat) (t : String) (c : Comment) (sc : ScreenshotComment)
    (h1 : reply.public = false) (h2 : reply.user = u)
    (hc : cs.find? (fun x => x.id == rid) = some c)
    (hsc : scs.find? (fun x => x.id == srid) = some sc) :
    reply_comment_create u reply cs n rid t =
      .created
        { id := n, filediff := c.filediff,
          interfilediff := c.interfilediff, reply_to := some c.id,
          text := t, first_line := c.first_line,
          num_lines := c.num_lines } ∧
    reply_screenshot_comment_create u reply scs n srid t =
      .created
        { id := n, screenshot := sc.screenshot, x := sc.x, y := sc.y,
          w := sc.w, h := sc.h, text := t, reply_to := none } := by
  constructor <;>
    simp [reply_comment_create, reply_screenshot_comment_create,
      has_modify_permissions, h1, h2, hc, hsc]

/-- C6 witness: concrete reply and originals for both comment kinds. -/
theorem c6_reply_comment_copies_fields_witness :
    reply_comment_create 7
        { id := 3, reviewRequest := 1, user := 7, public := false,
          shipIt := false, bodyTop := "", bodyBottom := "",
          baseReplyTo := some 2, bodyTopReplyTo := none,
          bodyBottomReplyTo := none }
        [{ id := 6, filediff := 31, interfilediff := some 32,
           first_line := 10, num_lines := 3, text := "orig",
           reply_to := none }]
        9 6 "re"
      = .created
          { id := 9, filediff := 31, interfilediff := some 32,
            reply_to := some 6, text := "re", first_line := 10,
            num_lines := 3 } ∧
    reply_screenshot_comment_create 7
        { id := 3, reviewRequest := 1, user := 7, public := false,
          shipIt := false, bodyTop := "", bodyBottom := "",
          baseReplyTo := some 2, bodyTopReplyTo := none,
          bodyBottomReplyTo := none }
        [{ id := 8, screenshot := 4, x := 1, y := 2, w := 3, h := 4,
           text := "orig", reply_to := none }]
        9 8 "re"
      = .created
          { id := 9, screenshot := 4, x := 1, y := 2, w := 3, h := 4,
            text := "re", reply_to := none } :=
  c6_reply_comment_copies_fields 7
    ⟨3, 1, 7, false, false, "", "", some 2, none, none⟩
    [⟨6, 31, some 32, 10, 3, "orig", none⟩]
    [⟨8, 4, 1, 2, 3, 4, "orig", none⟩]
    9 6 8 "re"
    ⟨6, 31, some 32, 10, 3, "orig", none⟩
    ⟨8, 4, 1, 2, 3, 4, "orig", none⟩
    rfl rfl rfl rfl

/-! ## Publishing a review request draft

`ReviewRequestDraftResource.action_publish` runs `draft.publish(...)`
followed by `draft.delete()` as two separate store operations with no
surrounding transaction.  The store state is the review request row
(mutable field set plus the public flag) together with the optional
draft row; the trace lists every state a concurrent reader could
observe: before the call, between the two operations, and after. -/

structure RRFields where
  summary : String
  description : String
  testing_done : String
  bugs_closed : String
  branch : String
  target_groups : List Nat
  target_people : List Nat
deriving DecidableEq, Repr

structure PubReviewRequest where
  fields : RRFields
  public : Bool
deriving DecidableEq, Repr

structure PubState where
  reviewRequest : PubReviewRequest
  draft : Option RRFields
deriving DecidableEq, Repr

/-- Modelled from the spec: `ReviewRequestDraft.publish`
(`reviews/models.py`, not under the embedded sources) copies the draft
mutable fields into the review request and makes it public; it does not
remove the draft row — the resource deletes the draft separately. -/
def draft_publish (s : PubState) : PubState :=
  match s.draft with
  | none => s
  | some d => { s with reviewRequest := { fields := d, public := true } }

/-- Modelled from the spec: `ReviewRequestDraft.delete` removes the
draft row. -/
def draft_delete (s : PubState) : PubState :=
  { s with draft := none }

/-- The store states visible during
`ReviewRequestDraftResource.action_publish` (lines 760-761:
`draft.publish(user=...)` then `draft.delete()`): the initial state, the
state after publish but before delete, and the final state. -/
def action_publish_trace (s : PubState) : List PubState :=
  [s, draft_publish s, draft_delete (draft_publish s)]


/-- A concrete set of review request field values used as the published
state in the publish-atomicity counterexample. -/
def c1oldFields : RRFields :=
  { summary := "old", description := "", testing_done := "",
    bugs_closed := "", branch := "", target_groups := [],
    target_people := [] }

/-- A concrete set of draft field values distinct from `c1oldFields`. -/
def c1newFields : RRFields :=
  { summary := "new", description := "d", testing_done := "",
    bugs_closed := "1", branch := "b", target_groups := [3],
    target_people := [] }

/-- A concrete store with a published review request and a pending
draft, about to be published. -/
def c1startState : PubState :=
  { reviewRequest := { fields := c1oldFields, public := true },
    draft := some c1newFields }

/-- C1 counterexample: publishing the concrete draft passes through an
observable intermediate state (index 1 of the trace) in which the review
request already carries the draft field values and is public while the
draft row still exists — the claimed atomicity fails on the code. -/
theorem c1_publish_intermediate_state_counterexample :
    (action_publish_trace c1startState).get? 1
      = some
          { reviewRequest := { fields := c1newFields, public := true },
            draft := some c1newFields } ∧
    c1newFields ≠ c1oldFields := by
  refine ⟨rfl, by decide⟩

/-- C1 amended: after `action_publish` completes, the review request
carries the draft field values and is public and the draft row is gone;
but publish and delete are two sequential store operations, so the trace
contains an observable intermediate state in which the review request is
already updated while the draft still exists. -/
theorem c1_publish_final_state_and_trace (s : PubState) (d : RRFields)
    (h : s.draft = some d) :
    action_publish_trace s =
      [s,
       { reviewRequest := { fields := d, public := true }, draft := some d },
       { reviewRequest := { fields := d, public := true }, draft := none }] := by
  simp [action_publish_trace, draft_publish, draft_delete, h]

/-- C1 witness: the amended statement evaluated on the concrete store. -/
theorem c1_publish_final_state_and_trace_witness :
    action_publish_trace c1startState =
      [c1startState,
       { reviewRequest := { fields := c1newFields, public := true },
         draft := some c1newFields },
       { reviewRequest := { fields := c1newFields, public := true },
         draft := none }] :=
  c1_publish_final_state_and_trace c1startState c1newFields rfl

/-! ## Review request draft updates

`ReviewRequestDraftResource.update` and `_set_draft_field_data`.  The
store (`DraftDb`) holds the group/user/screenshot tables and the draft
row: its scalar fields (persisted only by `draft.save()`) and its
`target_groups`/`target_people` many-to-many rows, which Django's
relation manager writes immediately on `clear()`/`add()` — this
distinction is the heart of claim C3.  `prepare_draft` is assumed to
have found the existing draft row (the get-or-create happens before the
field loop and does not depend on the posted fields). -/

structure RBGroup where
  id : Nat
  name : String
  display_name : String
deriving DecidableEq, Repr

structure RBUser where
  id : Nat
  username : String
deriving DecidableEq, Repr

structure Screenshot where
  id : Nat
  review_request : Nat
  caption : String
  draft_caption : String
deriving DecidableEq, Repr

structure DraftScalarFields where
  summary : String
  description : String
  testing_done : String
  bugs_closed : String
  branch : String
deriving DecidableEq, Repr

structure DraftDb where
  groups : List RBGroup
  users : List RBUser
  screenshots : List Screenshot
  draft_review_request : Nat
  draft_fields : DraftScalarFields
  draft_target_groups : List Nat
  draft_target_people : List Nat
  changedesc_text : String
deriving DecidableEq, Repr

/-- Objects staged in `modified_objects`, saved only when the update is
committed. -/
inductive ModifiedObject where
  | screenshotCaption (id : Nat) (draft_caption : String)
  | changeDescription (text : String)
deriving DecidableEq, Repr

/-- `ReviewRequestDraftResource.mutable_fields`. -/
def mutable_fields : List String :=
  ["summary", "description", "testing_done", "bugs_closed", "branch",
   "target_groups", "target_people"]

/-- `_find_user`: strips the username and looks it up exactly; the
authentication-backend fallback is an external collaborator, embedded as
resolving no further users, and a failed resolution surfaces as the
exception path (an invalid entry) in the caller. -/
def find_user (db : DraftDb) (username : String) : Option RBUser :=
  db.users.find? (fun u => u.username == pyStrip username)

/-- `Group.objects.get(Q(name__iexact=v) | Q(display_name__iexact=v))`:
returns the group only when exactly one matches; zero matches
(DoesNotExist) and several matches (MultipleObjectsReturned) both raise
and are caught by the caller as an invalid entry. -/
def get_group_iexact (db : DraftDb) (value : String) : Option RBGroup :=
  match db.groups.filter
      (fun g => lowerEq g.name value || lowerEq g.display_name value) with
  | [g] => some g
  | _ => none

/-- `_sanitize_bug_ids`: split on commas, strip whitespace, drop empty
tokens, and remove one leading `#`. -/
def sanitize_bug_ids (entries : String) : List String :=
  (pySplit ',' entries).filterMap (fun bug =>
    let bug := pyStrip bug
    match bug.data with
    | [] => none
    | '#' :: rest => some (String.mk rest)
    | _ => some bug)

/-- `setattr(draft, field_name, data)` for the scalar mutable fields. -/
def set_scalar (d : DraftScalarFields) (field_name v : String) :
    DraftScalarFields :=
  if field_name = "summary" then { d with summary := v }
  else if field_name = "description" then { d with description := v }
  else if field_name = "testing_done" then { d with testing_done := v }
  else if field_name = "bugs_closed" then { d with bugs_closed := v }
  else if field_name = "branch" then { d with branch := v }
  else d

/-- `SCREENSHOT_CAPTION_FIELD_RE.match(field_name)` for the pattern
`screenshot_([0-9]+)_caption`: Python `re.match` anchors only at the
start, so trailing characters after `_caption` are accepted; returns the
captured id. -/
def screenshot_caption_field_id (field_name : String) : Option Nat :=
  match chopLit "screenshot_".data field_name.data with
  | none => none
  | some rest =>
    let digits := rest.takeWhile Char.isDigit
    let rest2 := rest.dropWhile Char.isDigit
    if digits.isEmpty then none
    else if (chopLit "_caption".data rest2).isSome then
      some (digitsToNat digits)
    else none

structure SetFieldResult where
  db : DraftDb
  draft : DraftScalarFields
  modified_objects : List ModifiedObject
  invalid_entries : List String
deriving DecidableEq, Repr

/-- `ReviewRequestDraftResource._set_draft_field_data`: transforms one
posted field.  For `target_groups`/`target_people` the relation manager
`clear()`/`add()` calls write the membership rows to the store
immediately, before validation of the whole update is known; unknown
tokens accumulate as invalid entries without aborting the rest.  Scalar
assignments live only on the in-memory draft until `draft.save()`.
Screenshot captions resolve the screenshot by id against the whole
screenshot table and stage the caption as a modified object; a missing
id is a per-field invalid entry.  (In the unreachable arm where the
caption regex fails after the prefix matched, the source raises
AssertionError; the embedding returns the assertion text as an invalid
entry to stay total — the caller only dispatches here when the regex
matched.) -/
def set_draft_field_data (db : DraftDb) (draft : DraftScalarFields)
    (field_name data : String) : SetFieldResult :=
  if field_name = "target_groups" ∨ field_name = "target_people" then
    let values := reSplitCommaWs data
    let db0 :=
      if field_name = "target_groups" then
        { db with draft_target_groups := [] }
      else
        { db with draft_target_people := [] }
    let step := fun (acc : DraftDb × List String) (value : String) =>
      if value = "" then acc
      else if field_name = "target_groups" then
        match get_group_iexact acc.1 value with
        | some g =>
          ({ acc.1 with
              draft_target_groups := acc.1.draft_target_groups ++ [g.id] },
           acc.2)
        | none => (acc.1, acc.2 ++ [value])
      else
        match find_user acc.1 value with
        | some u =>
          ({ acc.1 with
              draft_target_people := acc.1.draft_target_people ++ [u.id] },
           acc.2)
        | none => (acc.1, acc.2 ++ [value])
    let r := values.foldl step (db0, [])
    { db := r.1, draft := draft, modified_objects := [],
      invalid_entries := r.2 }
  else if field_name = "bugs_closed" then
    let ds := sanitize_bug_ids data
    { db := db, draft := set_scalar draft "bugs_closed" (joinCommas ds),
      modified_objects := [], invalid_entries := [] }
  else if (chopLit "screenshot_".data field_name.data).isSome then
    match screenshot_caption_field_id field_name with
    | none =>
      { db := db, draft := draft, modified_objects := [],
        invalid_entries := ["Should not be reached"] }
    | some sid =>
      match db.screenshots.find? (fun s => s.id == sid) with
      | some _ =>
        { db := db, draft := draft,
          modified_objects := [.screenshotCaption sid data],
          invalid_entries := [] }
      | none =>
        { db := db, draft := draft, modified_objects := [],
          invalid_entries :=
            ["Screenshot with ID " ++ toString sid ++ " does not exist"] }
  else if field_name = "changedescription" then
    { db := db, draft := draft,
      modified_objects := [.changeDescription data],
      invalid_entries := [] }
  else if field_name = "summary" ∧ data.data.contains '\n' then
    { db := db, draft := draft, modified_objects := [],
      invalid_entries := ["Summary cannot contain newlines"] }
  else
    { db := db, draft := set_scalar draft field_name data,
      modified_objects := [], invalid_entries := [] }

/-- Saving one staged modified object into the store. -/
def apply_modified_object (db : DraftDb) : ModifiedObject → DraftDb
  | .screenshotCaption sid cap =>
    { db with
        screenshots := db.screenshots.map
          (fun s => if s.id == sid then { s with draft_caption := cap }
                    else s) }
  | .changeDescription t => { db with changedesc_text := t }

structure UpdLoopState where
  db : DraftDb
  draft : DraftScalarFields
  modified_objects : List ModifiedObject
  invalid_fields : List (String × List String)
deriving DecidableEq, Repr

/-- One iteration of the `for field_name in request.POST` loop in
`ReviewRequestDraftResource.update`: the special names `action`,
`method` and `callback` are skipped; names in the mutable field set or
matching the caption pattern are dispatched to `_set_draft_field_data`
(collecting invalid entries per field, or accumulating the staged
modified objects); every other name gets the per-field error
`Field is not supported`. -/
def update_step (acc : UpdLoopState) (fv : String × String) : UpdLoopState :=
  if fv.1 = "action" ∨ fv.1 = "method" ∨ fv.1 = "callback" then acc
  else if mutable_fields.contains fv.1 ∨
      (screenshot_caption_field_id fv.1).isSome then
    let r := set_draft_field_data acc.db acc.draft fv.1 fv.2
    if r.invalid_entries ≠ [] then
      { db := r.db, draft := r.draft,
        modified_objects := acc.modified_objects,
        invalid_fields := acc.invalid_fields ++ [(fv.1, r.invalid_entries)] }
    else if r.modified_objects ≠ [] then
      { db := r.db, draft := r.draft,
        modified_objects := acc.modified_objects ++ r.modified_objects,
        invalid_fields := acc.invalid_fields }
    else
      { db := r.db, draft := r.draft,
        modified_objects := acc.modified_objects,
        invalid_fields := acc.invalid_fields }
  else
    { acc with
        invalid_fields :=
          acc.invalid_fields ++ [(fv.1, ["Field is not supported"])] }

inductive DraftUpdateOutcome where
  | invalidFormData (fields : List (String × List String))
  | ok (status : Nat) (draft : DraftScalarFields)
deriving DecidableEq, Repr

/-- `ReviewRequestDraftResource.update`: runs the field loop, then — only
when `always_save` is set or no field was invalid — saves the staged
modified objects and the draft scalar row.  Returns INVALID_FORM_DATA
with the per-field errors when any field was invalid, else 200 with the
draft.  Note the store returned always carries whatever membership rows
the loop already wrote. -/
def draft_resource_update (db : DraftDb) (post : List (String × String))
    (always_save : Bool) : DraftDb × DraftUpdateOutcome :=
  let st := post.foldl update_step
    { db := db, draft := db.draft_fields, modified_objects := [],
      invalid_fields := [] }
  let db2 :=
    if always_save || st.invalid_fields.isEmpty then
      let saved := st.modified_objects.foldl apply_modified_object st.db
      { saved with draft_fields := st.draft }
    else st.db
  if st.invalid_fields.isEmpty = false then
    (db2, .invalidFormData st.invalid_fields)
  else
    (db2, .ok 200 st.draft)

/-- A concrete store for the draft-update scenario of the spec: one
group `alpha`, no users or screenshots, a draft whose scalar row holds
the old summary, and a previously saved `target_groups` membership
(group id 2). -/
def c3db : DraftDb :=
  { groups := [{ id := 1, name := "alpha", display_name := "Alpha" }],
    users := [], screenshots := [],
    draft_review_request := 1,
    draft_fields := { summary := "old summary", description := "",
                      testing_done := "", bugs_closed := "", branch := "" },
    draft_target_groups := [2],
    draft_target_people := [],
    changedesc_text := "" }

/-- C3 (code bug): the spec scenario — update with
`summary="Fix bug"`, `target_groups="alpha, beta"` where `beta` does not
exist, `always_save=false`.  The update correctly reports a validation
error naming `beta` and does not save the scalar summary, but the
`target_groups` membership rows have nevertheless been rewritten in the
store (from `[2]` to `[1]`): the relation-manager `clear()`/`add()`
calls write through immediately, defeating the all-or-nothing gate that
`draft.save()` is behind. -/
theorem c3_invalid_update_persists_membership :
    (draft_resource_update c3db
        [("summary", "Fix bug"), ("target_groups", "alpha, beta")]
        false).2
      = .invalidFormData [("target_groups", ["beta"])] ∧
    (draft_resource_update c3db
        [("summary", "Fix bug"), ("target_groups", "alpha, beta")]
        false).1.draft_fields = c3db.draft_fields ∧
    (draft_resource_update c3db
        [("summary", "Fix bug"), ("target_groups", "alpha, beta")]
        false).1.draft_target_groups = [1] ∧
    c3db.draft_target_groups = [2] :=
  ⟨rfl, rfl, rfl, rfl⟩

/-- C8 counterexample: the field name `action` is not in the mutable
field set and does not match the caption pattern, yet the update
silently skips it and succeeds with no per-field error, so the claim
that no unrecognized name is ever silently ignored fails as stated. -/
theorem c8_special_name_skipped_counterexample :
    mutable_fields.contains "action" = false ∧
    screenshot_caption_field_id "action" = none ∧
    (draft_resource_update c3db [("action", "publish")] false).2
      = .ok 200 c3db.draft_fields :=
  ⟨rfl, rfl, rfl⟩

theorem update_step_invalid_mono (acc : UpdLoopState)
    (fv : String × String) (x : String × List String)
    (hx : x ∈ acc.invalid_fields) :
    x ∈ (update_step acc fv).invalid_fields := by
  unfold update_step
  dsimp only
  split
  · exact hx
  · split
    · split
      · simp [hx]
      · split
        · exact hx
        · exact hx
    · simp [hx]

theorem foldl_update_step_invalid_mono (post : List (String × String))
    (acc : UpdLoopState) (x : String × List String)
    (hx : x ∈ acc.invalid_fields) :
    x ∈ (post.foldl update_step acc).invalid_fields := by
  induction post generalizing acc with
  | nil => exact hx
  | cons fv t ih =>
    exact ih (update_step acc fv) (update_step_invalid_mono acc fv x hx)

theorem update_step_unsupported (acc : UpdLoopState) (f v : String)
    (h1 : f ∉ mutable_fields)
    (h2 : screenshot_caption_field_id f = none)
    (h3 : f ≠ "action") (h4 : f ≠ "method") (h5 : f ≠ "callback") :
    (f, ["Field is not supported"])
      ∈ (update_step acc (f, v)).invalid_fields := by
  simp [update_step, h1, h2, h3, h4, h5]

theorem foldl_update_step_unsupported (post : List (String × String))
    (acc : UpdLoopState) (f v : String)
    (h0 : (f, v) ∈ post)
    (h1 : f ∉ mutable_fields)
    (h2 : screenshot_caption_field_id f = none)
    (h3 : f ≠ "action") (h4 : f ≠ "method") (h5 : f ≠ "callback") :
    (f, ["Field is not supported"])
      ∈ (post.foldl update_step acc).invalid_fields := by
  induction post generalizing acc with
  | nil => cases h0
  | cons fv t ih =>
    rcases List.mem_cons.mp h0 with h | h
    · subst h
      simp only [List.foldl_cons]
      exact foldl_update_step_invalid_mono t _ _
        (update_step_unsupported acc f v h1 h2 h3 h4 h5)
    · simp only [List.foldl_cons]
      exact ih (update_step acc fv) h

/-- C8 amended: every posted field name outside the mutable field set
and not matching the caption pattern gets the per-field error
`Field is not supported` — except the three special protocol names
`action`, `method` and `callback`, which the loop silently skips. -/
theorem c8_unsupported_field_reported (db : DraftDb)
    (post : List (String × String)) (f v : String) (always_save : Bool)
    (h0 : (f, v) ∈ post)
    (h1 : f ∉ mutable_fields)
    (h2 : screenshot_caption_field_id f = none)
    (h3 : f ≠ "action") (h4 : f ≠ "method") (h5 : f ≠ "callback") :
    (draft_resource_update db post always_save).2
      = .invalidFormData
          (post.foldl update_step
            { db := db, draft := db.draft_fields, modified_objects := [],
              invalid_fields := [] }).invalid_fields ∧
    (f, ["Field is not supported"])
      ∈ (post.foldl update_step
          { db := db, draft := db.draft_fields, modified_objects := [],
            invalid_fields := [] }).invalid_fields := by
  have hmem := foldl_update_step_unsupported post
    { db := db, draft := db.draft_fields, modified_objects := [],
      invalid_fields := [] } f v h0 h1 h2 h3 h4 h5
  refine ⟨?_, hmem⟩
  have hne : (post.foldl update_step
      { db := db, draft := db.draft_fields, modified_objects := [],
        invalid_fields := [] }).invalid_fields.isEmpty = false := by
    cases hl : (post.foldl update_step
        { db := db, draft := db.draft_fields, modified_objects := [],
          invalid_fields := [] }).invalid_fields with
    | nil => rw [hl] at hmem; cases hmem
    | cons a l => rfl
  simp [draft_resource_update, hne]

/-- C8 witness: the unsupported field name `publish` posted alone. -/
theorem c8_unsupported_field_reported_witness :
    (draft_resource_update c3db [("publish", "1")] false).2
      = .invalidFormData
          ([("publish", "1")].foldl update_step
            { db := c3db, draft := c3db.draft_fields,
              modified_objects := [], invalid_fields := [] }).invalid_fields ∧
    ("publish", ["Field is not supported"])
      ∈ ([("publish", "1")].foldl update_step
          { db := c3db, draft := c3db.draft_fields,
            modified_objects := [], invalid_fields := [] }).invalid_fields :=
  c8_unsupported_field_reported c3db [("publish", "1")] "publish" "1" false
    (by simp) (by decide) rfl (by decide) (by decide) (by decide)

theorem caption_field_ne (f : String) (sid : Nat) (lit : String)
    (hf : screenshot_caption_field_id f = some sid)
    (hl : screenshot_caption_field_id lit = none) : f ≠ lit := by
  rintro rfl
  rw [hl] at hf
  exact Option.noConfusion hf

theorem chop_isSome_of_caption_id (f : String) (sid : Nat)
    (hf : screenshot_caption_field_id f = some sid) :
    (chopLit "screenshot_".data f.data).isSome = true := by
  unfold screenshot_caption_field_id at hf
  cases h : chopLit "screenshot_".data f.data with
  | none => rw [h] at hf; simp at hf
  | some rest => rfl

theorem set_draft_field_data_caption (db : DraftDb)
    (draft : DraftScalarFields) (fname cap : String) (sid : Nat)
    (hf : screenshot_caption_field_id fname = some sid) :
    set_draft_field_data db draft fname cap =
      match db.screenshots.find? (fun s => s.id == sid) with
      | some _ =>
        { db := db, draft := draft,
          modified_objects := [.screenshotCaption sid cap],
          invalid_entries := [] }
      | none =>
        { db := db, draft := draft, modified_objects := [],
          invalid_entries :=
            ["Screenshot with ID " ++ toString sid ++ " does not exist"] } := by
  have hTG := caption_field_ne fname sid "target_groups" hf rfl
  have hTP := caption_field_ne fname sid "target_people" hf rfl
  have hBC := caption_field_ne fname sid "bugs_closed" hf rfl
  have hchop := chop_isSome_of_caption_id fname sid hf
  simp only [set_draft_field_data, hTG, hTP, hBC, hchop, hf]
  simp

/-- C10: a `screenshot_<id>_caption` draft field resolves the screenshot
by id against the whole screenshot table, with no check that it belongs
to the review request the draft is for: whenever any stored screenshot
has the id — its `review_request` field is unconstrained — the caption
is staged and saved with the draft, and only a nonexistent id yields the
per-field validation error. -/
theorem c10_caption_resolved_against_whole_store (db : DraftDb)
    (cap fname : String) (sid : Nat)
    (hf : screenshot_caption_field_id fname = some sid) :
    (∀ s : Screenshot,
      db.screenshots.find? (fun x => x.id == sid) = some s →
        (draft_resource_update db [(fname, cap)] false).2
            = .ok 200 db.draft_fields ∧
        (draft_resource_update db [(fname, cap)] false).1
            = { db with
                  screenshots := db.screenshots.map
                    (fun x => if x.id == sid then
                        { x with draft_caption := cap }
                      else x) }) ∧
    (db.screenshots.find? (fun x => x.id == sid) = none →
      (draft_resource_update db [(fname, cap)] false).2
          = .invalidFormData
              [(fname,
                ["Screenshot with ID " ++ toString sid ++ " does not exist"])] ∧
      (draft_resource_update db [(fname, cap)] false).1 = db) := by
  have hA := caption_field_ne fname sid "action" hf rfl
  have hM := caption_field_ne fname sid "method" hf rfl
  have hC := caption_field_ne fname sid "callback" hf rfl
  have hset := set_draft_field_data_caption db db.draft_fields fname cap sid hf
  constructor
  · intro s hfind
    rw [hfind] at hset
    constructor
    · simp [draft_resource_update, update_step, apply_modified_object,
        hA, hM, hC, hf, hset]
    · simp [draft_resource_update, update_step, apply_modified_object,
        hA, hM, hC, hf, hset]
  · intro hfind
    rw [hfind] at hset
    constructor
    · simp [draft_resource_update, update_step, hA, hM, hC, hf, hset]
    · simp [draft_resource_update, update_step, hA, hM, hC, hf, hset]

/-- A concrete store for the caption claim: the draft belongs to review
request 1, while the only stored screenshot (id 7) belongs to review
request 99. -/
def c10db : DraftDb :=
  { groups := [], users := [],
    screenshots := [{ id := 7, review_request := 99, caption := "c",
                      draft_caption := "" }],
    draft_review_request := 1,
    draft_fields := { summary := "s", description := "",
                      testing_done := "", bugs_closed := "", branch := "" },
    draft_target_groups := [],
    draft_target_people := [],
    changedesc_text := "" }

/-- C10 witness: the caption of screenshot 7 — attached to a different
review request than the draft — is staged and saved; the nonexistent
id 8 yields the per-field error. -/
theorem c10_caption_resolved_against_whole_store_witness :
    ((draft_resource_update c10db [("screenshot_7_caption", "hi")]
        false).2 = .ok 200 c10db.draft_fields ∧
     (draft_resource_update c10db [("screenshot_7_caption", "hi")]
        false).1
       = { c10db with
             screenshots := c10db.screenshots.map
               (fun x => if x.id == 7 then { x with draft_caption := "hi" }
                 else x) }) ∧
    ((draft_resource_update c10db [("screenshot_8_caption", "hi")]
        false).2
       = .invalidFormData
           [("screenshot_8_caption",
             ["Screenshot with ID " ++ toString 8 ++ " does not exist"])] ∧
     (draft_resource_update c10db [("screenshot_8_caption", "hi")]
        false).1 = c10db) :=
  ⟨(c10_caption_resolved_against_whole_store c10db "hi"
      "screenshot_7_caption" 7 rfl).1
      ⟨7, 99, "c", ""⟩ rfl,
   (c10_caption_resolved_against_whole_store c10db "hi"
      "screenshot_8_caption" 8 rfl).2 rfl⟩

/-! ## Review request list filtering

`ReviewRequestResource.get_queryset` with `is_list=True`: builds a `Q`
predicate from the optional URL criteria and hands it, together with the
parsed status, to the manager.  `Q` objects are embedded as boolean
predicates over the review request row; each
`if 'x' in request.GET: ... q = q & ...` block becomes one combinator
application, with the `for token in value.split(',')` loop folding the
per-token queries into the conjunction exactly as the source does. -/

structure ReviewRequestRow where
  id : Nat
  submitter : Nat
  submitter_name : String
  repository : Int
  changenum : Option Int
  status : String
  public : Bool
  target_groups : List Nat
  target_people : List Nat
deriving DecidableEq, Repr

/-- Group/user membership context backing the manager queries. -/
structure SiteCtx where
  groups : List RBGroup
  users : List RBUser
  group_members : List (Nat × Nat)
deriving DecidableEq, Repr

/-- The optional list-view URL criteria. -/
structure ListParams where
  to_groups : Option String
  to_users : Option String
  to_users_directly : Option String
  to_users_groups : Option String
  from_user : Option String
  repository : Option Int
  changenum : Option Int
  status : Option String
deriving DecidableEq, Repr

/-- Modelled from the spec: `ReviewRequestManager.get_to_group_query` —
review requests whose target reviewer groups include the named group. -/
def get_to_group_query (ctx : SiteCtx) (group_name : String)
    (rr : ReviewRequestRow) : Bool :=
  rr.target_groups.any (fun gid =>
    ctx.groups.any (fun g => g.id == gid && g.name == group_name))

/-- Modelled from the spec:
`ReviewRequestManager.get_to_user_directly_query` — the named user is in
the target reviewer list specifically. -/
def get_to_user_directly_query (ctx : SiteCtx) (username : String)
    (rr : ReviewRequestRow) : Bool :=
  rr.target_people.any (fun uid =>
    ctx.users.any (fun u => u.id == uid && u.username == username))

/-- Modelled from the spec:
`ReviewRequestManager.get_to_user_groups_query` — the named user belongs
to one of the target reviewer groups. -/
def get_to_user_groups_query (ctx : SiteCtx) (username : String)
    (rr : ReviewRequestRow) : Bool :=
  rr.target_groups.any (fun gid =>
    ctx.users.any (fun u =>
      u.username == username && ctx.group_members.contains (gid, u.id)))

/-- Modelled from the spec: `ReviewRequestManager.get_to_user_query` —
the named user is targeted directly or by way of a group. -/
def get_to_user_query (ctx : SiteCtx) (username : String)
    (rr : ReviewRequestRow) : Bool :=
  get_to_user_directly_query ctx username rr ||
    get_to_user_groups_query ctx username rr

/-- Modelled from the spec: `ReviewRequestManager.get_from_user_query` —
review requests owned by the named submitter. -/
def get_from_user_query (username : String) (rr : ReviewRequestRow) :
    Bool :=
  rr.submitter_name == username

/-- Modelled from the spec and the resource docstring:
`ReviewRequest.objects.public(user=..., status=..., extra_query=q)`
returns published review requests, filtered by the status when one is
given, conjoined with the extra query; the finer per-user visibility
refinement is the external accessibility check and does not involve the
URL criteria. -/
def objects_public (st : Option String) (extra : ReviewRequestRow → Bool)
    (rr : ReviewRequestRow) : Bool :=
  rr.public &&
    (match st with | none => true | some stv => rr.status == stv) &&
    extra rr

/-- One `if 'x' in request.GET: for token in value.split(','):
q = q & crit(token)` block: absent parameter leaves `q` unchanged;
a present parameter folds the per-token criteria into the conjunction,
one `&` per token. -/
def fold_criterion (crit : String → ReviewRequestRow → Bool)
    (p : Option String) (q : ReviewRequestRow → Bool) :
    ReviewRequestRow → Bool :=
  match p with
  | none => q
  | some s =>
    (pySplit ',' s).foldl (fun q t => fun rr => q rr && crit t rr) q

/-- One single-valued `if 'x' in request.GET: q = q & crit(value)`
block. -/
def and_criterion {α : Type} (crit : α → ReviewRequestRow → Bool)
    (p : Option α) (q : ReviewRequestRow → Bool) :
    ReviewRequestRow → Bool :=
  match p with
  | none => q
  | some a => fun rr => q rr && crit a rr

/-- `ReviewRequestResource.get_queryset` for list views: the criteria
blocks in source order, then the status parameter (defaulting to
`pending`) parsed by `string_to_status` — an unknown status raises —
and the result handed to the manager with the accumulated query. -/
def review_request_get_queryset (ctx : SiteCtx) (params : ListParams) :
    Except String (ReviewRequestRow → Bool) :=
  let q : ReviewRequestRow → Bool := fun _ => true
  let q := fold_criterion (get_to_group_query ctx) params.to_groups q
  let q := fold_criterion (get_to_user_query ctx) params.to_users q
  let q := fold_criterion (get_to_user_directly_query ctx)
    params.to_users_directly q
  let q := fold_criterion (get_to_user_groups_query ctx)
    params.to_users_groups q
  let q := and_criterion get_from_user_query params.from_user q
  let q := and_criterion (fun rid rr => rr.repository == rid)
    params.repository q
  let q := and_criterion (fun cn rr => rr.changenum == some cn)
    params.changenum q
  match string_to_status (params.status.getD "pending") with
  | .error e => .error e
  | .ok st => .ok (fun rr => objects_public st q rr)

/-- All comma-separated tokens of an optional multi-value criterion
must match (the conjunction the code actually builds). -/
def tokenAll (crit : String → ReviewRequestRow → Bool) (p : Option String)
    (rr : ReviewRequestRow) : Bool :=
  match p with
  | none => true
  | some s => (pySplit ',' s).all (fun t => crit t rr)

/-- An optional single-valued criterion, `true` when absent. -/
def optMatch {α : Type} (crit : α → ReviewRequestRow → Bool)
    (p : Option α) (rr : ReviewRequestRow) : Bool :=
  match p with
  | none => true
  | some a => crit a rr

/-- The list predicate written directly as one conjunction per
criterion, with conjunction also over the tokens inside a multi-value
criterion. -/
def conjunctive_list_predicate (ctx : SiteCtx) (params : ListParams)
    (st : Option String) (rr : ReviewRequestRow) : Bool :=
  rr.public &&
    (match st with | none => true | some stv => rr.status == stv) &&
    (tokenAll (get_to_group_query ctx) params.to_groups rr &&
     tokenAll (get_to_user_query ctx) params.to_users rr &&
     tokenAll (get_to_user_directly_query ctx) params.to_users_directly rr &&
     tokenAll (get_to_user_groups_query ctx) params.to_users_groups rr &&
     optMatch get_from_user_query params.from_user rr &&
     optMatch (fun rid rr => rr.repository == rid) params.repository rr &&
     optMatch (fun cn rr => rr.changenum == some cn) params.changenum rr)

/-- The list predicate as the spec words it: OR over the comma-separated
tokens inside one multi-value criterion, AND across criteria.  Written
from the spec sentence, for comparison with the code predicate. -/
def tokenAnySpec (crit : String → ReviewRequestRow → Bool)
    (p : Option String) (rr : ReviewRequestRow) : Bool :=
  match p with
  | none => true
  | some s => (pySplit ',' s).any (fun t => crit t rr)

/-- The spec version of the whole list predicate (OR within a
multi-value criterion). -/
def spec_list_predicate (ctx : SiteCtx) (params : ListParams)
    (st : Option String) (rr : ReviewRequestRow) : Bool :=
  rr.public &&
    (match st with | none => true | some stv => rr.status == stv) &&
    (tokenAnySpec (get_to_group_query ctx) params.to_groups rr &&
     tokenAnySpec (get_to_user_query ctx) params.to_users rr &&
     tokenAnySpec (get_to_user_directly_query ctx)
       params.to_users_directly rr &&
     tokenAnySpec (get_to_user_groups_query ctx)
       params.to_users_groups rr &&
     optMatch get_from_user_query params.from_user rr &&
     optMatch (fun rid rr => rr.repository == rid) params.repository rr &&
     optMatch (fun cn rr => rr.changenum == some cn) params.changenum rr)

theorem foldl_and_apply (crit : String → ReviewRequestRow → Bool)
    (ts : List String) (q : ReviewRequestRow → Bool)
    (rr : ReviewRequestRow) :
    (ts.foldl (fun q t => fun rr => q rr && crit t rr) q) rr
      = (q rr && ts.all (fun t => crit t rr)) := by
  induction ts generalizing q with
  | nil => simp
  | cons h t ih => simp [ih, Bool.and_assoc]

theorem fold_criterion_apply (crit : String → ReviewRequestRow → Bool)
    (p : Option String) (q : ReviewRequestRow → Bool)
    (rr : ReviewRequestRow) :
    fold_criterion crit p q rr = (q rr && tokenAll crit p rr) := by
  cases p <;> simp [fold_criterion, tokenAll, foldl_and_apply]

theorem and_criterion_apply {α : Type}
    (crit : α → ReviewRequestRow → Bool) (p : Option α)
    (q : ReviewRequestRow → Bool) (rr : ReviewRequestRow) :
    and_criterion crit p q rr = (q rr && optMatch crit p rr) := by
  cases p <;> simp [and_criterion, optMatch]

/-- C5 amended: the list predicate is the conjunction of every criterion
present, with conjunction ALSO over the comma-separated tokens inside a
multi-value criterion (each token is `&`-ed into the query); the status
defaults to `pending`, `all` removes the status filter, and an unknown
status string is a hard error. -/
theorem c5_list_predicate_conjunctive (ctx : SiteCtx)
    (params : ListParams) (rr : ReviewRequestRow) :
    (review_request_get_queryset ctx params).map (fun p => p rr)
      = (string_to_status (params.status.getD "pending")).map
          (fun st => conjunctive_list_predicate ctx params st rr) := by
  unfold review_request_get_queryset
  cases h : string_to_status (params.status.getD "pending") with
  | error e => simp [h]; rfl
  | ok st =>
    simp only [h]
    simp [objects_public, conjunctive_list_predicate,
      fold_criterion_apply, and_criterion_apply, Bool.and_assoc]
    rfl

/-- Two groups named `a` and `b`; no users. -/
def c5ctx : SiteCtx :=
  { groups := [{ id := 1, name := "a", display_name := "A" },
               { id := 2, name := "b", display_name := "B" }],
    users := [], group_members := [] }

/-- A list request filtering on `to-groups=a,b` and nothing else. -/
def c5params : ListParams :=
  { to_groups := some "a,b", to_users := none, to_users_directly := none,
    to_users_groups := none, from_user := none, repository := none,
    changenum := none, status := none }

/-- A pending public review request targeted at group `a` only. -/
def c5rr : ReviewRequestRow :=
  { id := 1, submitter := 1, submitter_name := "alice", repository := 1,
    changenum := none, status := "P", public := true,
    target_groups := [1], target_people := [] }

/-- C5 counterexample: on a review request targeted at group `a` only,
the code predicate for `to-groups=a,b` is false (each token is `&`-ed
in), while the OR-within-criterion predicate the claim states is true —
so the claimed predicate differs from the code on this input. -/
theorem c5_or_within_criterion_counterexample :
    (review_request_get_queryset c5ctx c5params).map (fun p => p c5rr)
      = .ok false ∧
    spec_list_predicate c5ctx c5params (some "P") c5rr = true :=
  ⟨rfl, rfl⟩
